import Mathlib

/-!
Shallow embedding of the outfit-recommendation core of the repository
(`app/models.py`, `app/recommender.py`, `app/scorer.py`).

Conventions of the embedding:
* Python floats are modelled by `ℚ`; Python `%` on floats by `pymod`
  (`x - y * ⌊x / y⌋`, the sign-of-divisor remainder Python uses).
* Python's `random` module is modelled by an explicit stream of naturals
  (`List ℕ`): `random.randint(a, b)` consumes one element `n` and yields
  `a + n % (b - a + 1)`; `random.choice(l)` consumes one element `n` and
  yields `l[n % len(l)]`.  Every behaviour of the real generator is the
  behaviour of the model on some stream.
* Python exceptions are modelled by `Option` / `Except`: `_select_item`
  raising `ValueError("No candidates available")` is `none`;
  `generate_recommendations` raising `ValueError("Product ... not found")`
  is `Except.error`.  The `try/except` in the generation loop catches every
  exception of a single attempt, which the model mirrors by threading the
  `Option` result.
* Python dictionaries keyed by strings are modelled by association lists
  where a later insert shadows an earlier one (lookup searches the reversed
  list), matching `dict` update semantics.
* The human-readable reason strings produced by the scorer are not
  modelled (no claim concerns them); every numeric computation of the
  scorer is.  The `reasoning` field of a scored outfit is set to `""`.
-/

namespace CultureCircle

/-- `app/models.py` `Category`. -/
inductive Category where
  | top
  | bottom
  | footwear
  | accessory
deriving DecidableEq, Repr

/-- `app/models.py` `Style`. -/
inductive Style where
  | casual
  | formal
  | sporty
  | bohemian
  | minimalist
  | vintage
  | streetwear
  | business
deriving DecidableEq, Repr

/-- `app/models.py` `Season`. -/
inductive Season where
  | spring
  | summer
  | fall
  | winter
  | all_season
deriving DecidableEq, Repr

/-- `app/models.py` `Occasion`. -/
inductive Occasion where
  | everyday
  | work
  | party
  | date
  | sports
  | formal_event
  | travel
deriving DecidableEq, Repr

/-- `app/models.py` `Color`: three 8-bit RGB channels. -/
structure Color where
  r : ℕ
  g : ℕ
  b : ℕ
deriving DecidableEq, Repr

/-- Python float `%`: result has the sign of the divisor,
`x % y = x - y * floor (x / y)`. -/
def pymod (x y : ℚ) : ℚ := x - y * ⌊x / y⌋

/-- `Color.to_hsv` from `app/models.py`: RGB to (hue, saturation, value). -/
def Color.to_hsv (c : Color) : ℚ × ℚ × ℚ :=
  let r : ℚ := (c.r : ℚ) / 255
  let g : ℚ := (c.g : ℚ) / 255
  let b : ℚ := (c.b : ℚ) / 255
  let max_val := max r (max g b)
  let min_val := min r (min g b)
  let delta := max_val - min_val
  let h : ℚ :=
    if delta = 0 then 0
    else if max_val = r then 60 * pymod ((g - b) / delta) 6
    else if max_val = g then 60 * (((b - r) / delta) + 2)
    else 60 * (((r - g) / delta) + 4)
  let s : ℚ := if max_val = 0 then 0 else delta / max_val
  (h, s, max_val)

/-- `app/models.py` `Product`. -/
structure Product where
  id : String
  name : String
  category : Category
  style : Style
  color : Color
  price : ℚ
  season : Season
  occasion : List Occasion
  brand : Option String := none
  description : Option String := none
deriving DecidableEq, Repr

/-- `app/models.py` `Outfit`. -/
structure Outfit where
  top : Product
  bottom : Product
  footwear : Product
  accessories : List Product
  match_score : ℚ
  reasoning : String
  total_price : ℚ
deriving DecidableEq, Repr

/-- `app/models.py` `RecommendationRequest`.  The desired result count is a
natural number (the data model requires a positive integer). -/
structure RecommendationRequest where
  base_product_id : String
  occasion : Option Occasion := none
  season : Option Season := none
  max_budget : Option ℚ := none
  style_preference : Option Style := none
  num_recommendations : ℕ := 5
deriving DecidableEq, Repr

deriving instance DecidableEq for Except

/-! ### The random-stream model -/

/-- Draw the next raw value from the stream (0 if exhausted). -/
def rngNext : List ℕ → ℕ × List ℕ
  | [] => (0, [])
  | n :: rest => (n, rest)

/-- `random.randint(lo, hi)` (inclusive bounds), consuming one stream element. -/
def randint (lo hi : ℕ) (rng : List ℕ) : ℕ × List ℕ :=
  let (n, rng') := rngNext rng
  (lo + n % (hi - lo + 1), rng')

/-- `random.choice(l)`: `none` exactly when the list is empty, otherwise an
element of the list, consuming one stream element. -/
def choice {α : Type} (l : List α) (rng : List ℕ) : Option (α × List ℕ) :=
  match l with
  | [] => none
  | a :: tl =>
    let (n, rng') := rngNext rng
    some ((a :: tl).getD (n % (a :: tl).length) a, rng')

/-! ### `OutfitRecommender` (`app/recommender.py`)

The recommender's state is determined by its product list, so each method
becomes a function taking `products : List Product` where it uses the
indexes built in `__init__`. -/

/-- `_index_products`: `self.by_category[cat]` (insertion order preserved). -/
def by_category (products : List Product) (cat : Category) : List Product :=
  products.filter (fun p => decide (p.category = cat))

/-- `_index_products`: `self.by_id.get(pid)`; on duplicate ids the later
product shadows the earlier one, as in a Python dict. -/
def by_id (products : List Product) (pid : String) : Option Product :=
  products.reverse.find? (fun p => decide (p.id = pid))

/-- `tuple(sorted([a, b]))` on two strings. -/
def sortedKey (a b : String) : String × String :=
  if a ≤ b then (a, b) else (b, a)

/-- `_calculate_color_compatibility`: the coarse engine-level band table. -/
def calculate_color_compatibility (color1 color2 : Color) : ℚ :=
  let hsv1 := color1.to_hsv
  let hsv2 := color2.to_hsv
  let d0 := |hsv1.1 - hsv2.1|
  let hue_diff := if d0 > 180 then 360 - d0 else d0
  if hue_diff < 30 then 9/10
  else if 150 < hue_diff ∧ hue_diff < 180 then 17/20
  else if 115 < hue_diff ∧ hue_diff < 125 then 3/4
  else 3/5

/-- All index pairs `i < j` of a list, in the nested-loop order of
`_precompute_compatibility`. -/
def allPairs : List Product → List (Product × Product)
  | [] => []
  | p :: rest => rest.map (fun q => (p, q)) ++ allPairs rest

/-- `_precompute_compatibility`: `self.compatibility_cache` as an
association list in insertion order. -/
def compatibility_cache (products : List Product) :
    List ((String × String) × ℚ) :=
  (allPairs products).map (fun pq =>
    (sortedKey pq.1.id pq.2.id,
     calculate_color_compatibility pq.1.color pq.2.color))

/-- `_get_compatibility`: dictionary lookup (latest insert wins) with the
neutral default `0.5`. -/
def get_compatibility (products : List Product) (p1 p2 : Product) : ℚ :=
  match (compatibility_cache products).reverse.find?
      (fun e => decide (e.1 = sortedKey p1.id p2.id)) with
  | some e => e.2
  | none => 1/2

/-- The scored candidate list built inside `_select_item`: candidates whose
id differs from the base product's, each paired with
`compatibility + style bonus`, in candidate order. -/
def scored_candidates (products : List Product) (candidates : List Product)
    (base_product : Product) : List (ℚ × Product) :=
  (candidates.filter (fun c => decide (c.id ≠ base_product.id))).map
    (fun c =>
      (get_compatibility products base_product c +
        (if c.style = base_product.style then 1/5 else 0), c))

/-- `scored.sort(key=..., reverse=True)` followed by the
`[:max(3, len(scored) // 3)]` slice: the stable descending sort and the
top-k cut of `_select_item`.  Python's `list.sort` is a stable sort by the
key; `List.insertionSort` with the descending-score relation is also
stable, so it produces the identical list. -/
def top_candidates (products : List Product) (candidates : List Product)
    (base_product : Product) : List (ℚ × Product) :=
  let scored := scored_candidates products candidates base_product
  let sorted := scored.insertionSort (fun a b => b.1 ≤ a.1)
  sorted.take (max 3 (sorted.length / 3))

/-- `_select_item`: `none` models the `ValueError("No candidates available")`
raised on an empty candidate list (raised before any random draw); otherwise
one stream element is consumed and an item is returned — from the top
candidates when there are any, and by the `random.choice(candidates)`
fallback otherwise. -/
def select_item (products : List Product) (candidates : List Product)
    (base_product : Product) (rng : List ℕ) : Option (Product × List ℕ) :=
  match candidates with
  | [] => none
  | _ =>
    match top_candidates products candidates base_product with
    | [] => choice candidates rng
    | t :: ts => (choice (t :: ts) rng).map (fun pr => (pr.1.2, pr.2))

/-- The accessory-selection loop of `_generate_single_outfit`: repeat
`num_accessories` times; when accessory candidates exist select one and keep
it unless it is already chosen (Python `acc not in accessories`, dataclass
structural equality). -/
def acc_loop (products : List Product) (accCands : List Product)
    (base_product : Product) :
    ℕ → List Product → List ℕ → List Product × List ℕ
  | 0, acc, rng => (acc, rng)
  | n + 1, acc, rng =>
    match accCands with
    | [] => acc_loop products accCands base_product n acc rng
    | _ =>
      match select_item products accCands base_product rng with
      | some (a, rng') =>
        if a ∈ acc then acc_loop products accCands base_product n acc rng'
        else acc_loop products accCands base_product n (acc ++ [a]) rng'
      | none => acc_loop products accCands base_product n acc rng

/-- The slot expression of `_generate_single_outfit`:
`base_product if base_category == slotCat else self._select_item(...)`. -/
def pick_slot (products : List Product) (base_product : Product)
    (cands : List Product) (slotCat : Category) (rng : List ℕ) :
    Option (Product × List ℕ) :=
  if base_product.category = slotCat then some (base_product, rng)
  else select_item products cands base_product rng

/-- The accessory phase of `_generate_single_outfit`: draw
`num_accessories = randint(1, 3)`, run the selection loop, and apply the
`if not accessories and candidates[ACCESSORY]:` fallback. -/
def acc_phase (products : List Product) (accCands : List Product)
    (base_product : Product) (rng : List ℕ) : List Product × List ℕ :=
  let na := randint 1 3 rng
  let accR := acc_loop products accCands base_product na.1 [] na.2
  if accR.1 = [] ∧ accCands ≠ [] then
    match select_item products accCands base_product accR.2 with
    | some (a, rng') => ([a], rng')
    | none => accR
  else accR

/-- `_generate_single_outfit`.  The first component is `none` when the
attempt raises (a required slot had no candidates); the second component is
the random stream as consumed up to that point. -/
def generate_single_outfit (products : List Product) (base_product : Product)
    (candidates : Category → List Product) (rng : List ℕ) :
    Option Outfit × List ℕ :=
  match pick_slot products base_product (candidates Category.top)
      Category.top rng with
  | none => (none, rng)
  | some (top, rng1) =>
    match pick_slot products base_product (candidates Category.bottom)
        Category.bottom rng1 with
    | none => (none, rng1)
    | some (bottom, rng2) =>
      match pick_slot products base_product (candidates Category.footwear)
          Category.footwear rng2 with
      | none => (none, rng2)
      | some (footwear, rng3) =>
        let accFin := acc_phase products (candidates Category.accessory)
          base_product rng3
        let total_price := top.price + bottom.price + footwear.price +
          (accFin.1.map Product.price).sum
        (some { top := top, bottom := bottom, footwear := footwear,
                accessories := accFin.1, match_score := 0, reasoning := "",
                total_price := total_price }, accFin.2)

/-- `_filter_candidates`, one category at a time.  The four filters are
applied in source order; `if max_budget:` is false for `None` and for `0.0`,
which the `b = 0` test mirrors. -/
def filter_one (products : List Product) (base_product : Product)
    (occasion : Option Occasion) (season : Option Season)
    (max_budget : Option ℚ) (style_preference : Option Style)
    (cat : Category) : List Product :=
  let c0 := by_category products cat
  let c1 := match occasion with
    | none => c0
    | some o => c0.filter (fun p => decide (o ∈ p.occasion))
  let c2 := match season with
    | none => c1
    | some s => c1.filter
        (fun p => decide (p.season = s ∨ p.season = Season.all_season))
  let c3 := match style_preference with
    | none => c2
    | some st => c2.filter
        (fun p => decide (p.style = st ∨ p.style = base_product.style))
  match max_budget with
  | none => c3
  | some b =>
    if b = 0 then c3
    else c3.filter
      (fun p => decide (p.price ≤ (b - base_product.price) * (3/2)))

/-- `_filter_candidates` as a per-category function. -/
def filter_candidates (products : List Product) (base_product : Product)
    (occasion : Option Occasion) (season : Option Season)
    (max_budget : Option ℚ) (style_preference : Option Style) :
    Category → List Product :=
  fun cat =>
    filter_one products base_product occasion season max_budget
      style_preference cat

/-- `_is_duplicate`: same (top, bottom, footwear) identifier triple as some
already collected outfit. -/
def is_duplicate (outfit : Outfit) (existing : List Outfit) : Bool :=
  existing.any (fun e =>
    decide (outfit.top.id = e.top.id) &&
    decide (outfit.bottom.id = e.bottom.id) &&
    decide (outfit.footwear.id = e.footwear.id))

/-- The `while len(outfits) < num and attempts < max_attempts` loop of
`generate_recommendations`; `fuel` is the remaining attempt budget
(initially 100). -/
def gen_loop (products : List Product) (base_product : Product)
    (candidates : Category → List Product) (num : ℕ) :
    ℕ → List Outfit → List ℕ → List Outfit
  | 0, outfits, _ => outfits
  | fuel + 1, outfits, rng =>
    if outfits.length < num then
      match generate_single_outfit products base_product candidates rng with
      | (some o, rng') =>
        gen_loop products base_product candidates num fuel
          (if is_duplicate o outfits then outfits else outfits ++ [o]) rng'
      | (none, rng') =>
        gen_loop products base_product candidates num fuel outfits rng'
    else outfits

/-! ### `OutfitScorer` (`app/scorer.py`) -/

/-- The scorer's weight constants. -/
def COLOR_WEIGHT : ℚ := 30/100

/-- Weight of the style sub-score. -/
def STYLE_WEIGHT : ℚ := 25/100

/-- Weight of the occasion sub-score. -/
def OCCASION_WEIGHT : ℚ := 20/100

/-- Weight of the season sub-score. -/
def SEASON_WEIGHT : ℚ := 15/100

/-- Weight of the budget sub-score. -/
def BUDGET_WEIGHT : ℚ := 10/100

/-- `[outfit.top, outfit.bottom, outfit.footwear] + outfit.accessories`. -/
def allItems (o : Outfit) : List Product :=
  [o.top, o.bottom, o.footwear] ++ o.accessories

/-- The per-item classification of `_score_color_harmony`: band the
normalized circular hue distance between the anchor hue and an item's hue,
with the branch order of the source. -/
def fine_band_score (base_hue hue : ℚ) : ℚ :=
  let d0 := |hue - base_hue|
  let hue_diff := if d0 > 180 then 360 - d0 else d0
  if hue_diff < 15 then 19/20
  else if hue_diff < 30 then 17/20
  else if 115 < hue_diff ∧ hue_diff < 125 then 3/4
  else if 150 < hue_diff ∧ hue_diff < 180 then 4/5
  else if 30 < hue_diff ∧ hue_diff < 60 then 7/10
  else 1/2

/-- `_score_color_harmony` (numeric part): average the per-item band scores
against the top's hue, add the low-saturation bonus, clamp at 1. -/
def score_color_harmony (o : Outfit) : ℚ :=
  let colors := (allItems o).map Product.color
  let base_hue := (o.top.color.to_hsv).1
  let rest := colors.tail
  let harmony_score := (rest.map (fun c => fine_band_score base_hue c.to_hsv.1)).sum
  let avg_score := if rest.length = 0 then 1/2 else harmony_score / rest.length
  let neutral_count := colors.countP (fun c => decide (c.to_hsv.2.1 < 2/10))
  let neutral_bonus :=
    if neutral_count > 0 then min (1/10) ((neutral_count : ℚ) * (3/100)) else 0
  min 1 (avg_score + neutral_bonus)

/-- `_score_style_compatibility` (numeric part). -/
def score_style_compatibility (o : Outfit) : ℚ :=
  let styles := (allItems o).map Product.style
  let base_style := o.top.style
  let rest := styles.tail
  let match_count := rest.countP (fun st => decide (st = base_style))
  let total := rest.length
  if total = 0 then 1
  else
    let match_ratio : ℚ := (match_count : ℚ) / (total : ℚ)
    if match_ratio = 1 then 1
    else if match_ratio ≥ 1/2 then 3/4
    else 11/20

/-- `_score_occasion_fit` (numeric part). -/
def score_occasion_fit (target_occasion : Option Occasion) (o : Outfit) : ℚ :=
  match target_occasion with
  | none => 7/10
  | some t =>
    let items := allItems o
    let matching := items.countP (fun p => decide (t ∈ p.occasion))
    let match_ratio : ℚ := (matching : ℚ) / (items.length : ℚ)
    if match_ratio ≥ 8/10 then 1
    else if match_ratio ≥ 6/10 then 8/10
    else if match_ratio ≥ 4/10 then 6/10
    else 4/10

/-- `_score_season_fit` (numeric part). -/
def score_season_fit (target_season : Option Season) (o : Outfit) : ℚ :=
  match target_season with
  | none => 7/10
  | some t =>
    let items := allItems o
    let matching := items.countP
      (fun p => decide (p.season = t ∨ p.season = Season.all_season))
    let match_ratio : ℚ := (matching : ℚ) / (items.length : ℚ)
    if match_ratio ≥ 8/10 then 1
    else if match_ratio ≥ 6/10 then 8/10
    else if match_ratio ≥ 4/10 then 6/10
    else 4/10

/-- `_score_budget` (numeric part); `if not self.max_budget` is true for
`None` and for `0.0`. -/
def score_budget (max_budget : Option ℚ) (o : Outfit) : ℚ :=
  match max_budget with
  | none => 7/10
  | some b =>
    if b = 0 then 7/10
    else if o.total_price ≤ b then
      if o.total_price / b < 7/10 then 9/10 else 1
    else
      let overage := o.total_price - b
      let penalty := min (1/2) (overage / b)
      max (1/10) (1/2 - penalty)

/-- `score_outfit` (numeric part): the fixed weighted sum of the five
sub-scores. -/
def score_outfit (target_occasion : Option Occasion)
    (target_season : Option Season) (max_budget : Option ℚ)
    (o : Outfit) : ℚ :=
  score_color_harmony o * COLOR_WEIGHT +
  score_style_compatibility o * STYLE_WEIGHT +
  score_occasion_fit target_occasion o * OCCASION_WEIGHT +
  score_season_fit target_season o * SEASON_WEIGHT +
  score_budget max_budget o * BUDGET_WEIGHT

/-- The rescoring step of `generate_recommendations`: attach the computed
match score (the reasoning text is not modelled). -/
def rescore (occasion : Option Occasion) (season : Option Season)
    (max_budget : Option ℚ) (o : Outfit) : Outfit :=
  { o with match_score := score_outfit occasion season max_budget o,
           reasoning := "" }

/-- `generate_recommendations`: resolve the base product (`ValueError` as
`Except.error` when absent), filter candidates, run the bounded generation
loop, score, stable-sort descending by score, truncate. -/
def generate_recommendations (products : List Product)
    (request : RecommendationRequest) (rng : List ℕ) :
    Except String (List Outfit) :=
  match by_id products request.base_product_id with
  | none =>
    Except.error ("Product " ++ request.base_product_id ++ " not found")
  | some base_product =>
    let candidates := filter_candidates products base_product
      request.occasion request.season request.max_budget
      request.style_preference
    let outfits := gen_loop products base_product candidates
      request.num_recommendations 100 [] rng
    let scored_outfits := outfits.map
      (rescore request.occasion request.season request.max_budget)
    let sorted := scored_outfits.insertionSort
      (fun a b => b.match_score ≤ a.match_score)
    Except.ok (sorted.take request.num_recommendations)

/-! ### Claim-side definitions and concrete data -/

/-- The identifier triple compared by `_is_duplicate`. -/
def same_core (a b : Outfit) : Prop :=
  a.top.id = b.top.id ∧ a.bottom.id = b.bottom.id ∧
    a.footwear.id = b.footwear.id

instance (a b : Outfit) : Decidable (same_core a b) := by
  unfold same_core; infer_instance

/-- Modelled from the spec: the scorer's fine-grained band table read off
the amended claim, with every range endpoint strict (the listed ranges are
open intervals), written with the bands in a different order than the
source. -/
def spec_band_table (d : ℚ) : ℚ :=
  if d < 15 then 19/20
  else if d < 30 then 17/20
  else if 30 < d ∧ d < 60 then 7/10
  else if 115 < d ∧ d < 125 then 3/4
  else if 150 < d ∧ d < 180 then 4/5
  else 1/2

/-- Modelled from the spec: circular hue distance normalized to [0, 180]. -/
def spec_hue_distance (anchor h : ℚ) : ℚ :=
  let d0 := |h - anchor|
  if d0 > 180 then 360 - d0 else d0

/-- Modelled from the spec (amended claim for the color sub-score):
classify every non-top item's hue distance to the top's hue with
`spec_band_table`, average the per-item scores, add the neutrality bonus
`min (1/10) (3/100 * lowSaturationCount)` over all items, clamp at 1. -/
def spec_color_score (o : Outfit) : ℚ :=
  let anchor := o.top.color.to_hsv.1
  let others := [o.bottom, o.footwear] ++ o.accessories
  let per_item := others.map
    (fun p => spec_band_table (spec_hue_distance anchor p.color.to_hsv.1))
  let avg := per_item.sum / (per_item.length : ℚ)
  let low_sat := (allItems o).countP
    (fun p => decide (p.color.to_hsv.2.1 < 2/10))
  min 1 (avg + min (1/10) ((low_sat : ℚ) * (3/100)))

/-- Checker used by the claim about accessory-category base products: the
recommendation result is a non-empty success and no returned outfit
contains an item with the given identifier. -/
def result_omits (pid : String) : Except String (List Outfit) → Bool
  | Except.error _ => false
  | Except.ok l =>
    !l.isEmpty &&
      l.all (fun o => ((allItems o).map Product.id).all (fun i => i != pid))

/-- Pure red: hue 0, saturation 1. -/
def redColor : Color := ⟨255, 0, 0⟩

/-- Pure cyan: hue 180, saturation 1. -/
def cyanColor : Color := ⟨0, 255, 255⟩

/-- A demo top. -/
def pT : Product :=
  { id := "t1", name := "demo top", category := Category.top,
    style := Style.casual, color := redColor, price := 20,
    season := Season.all_season, occasion := [Occasion.everyday] }

/-- A demo bottom. -/
def pB : Product :=
  { id := "b1", name := "demo bottom", category := Category.bottom,
    style := Style.casual, color := cyanColor, price := 30,
    season := Season.all_season, occasion := [Occasion.everyday] }

/-- A demo footwear item. -/
def pF : Product :=
  { id := "f1", name := "demo footwear", category := Category.footwear,
    style := Style.casual, color := redColor, price := 40,
    season := Season.all_season, occasion := [Occasion.everyday] }

/-- A demo accessory used as a base product. -/
def pBase : Product :=
  { id := "abase", name := "demo base accessory",
    category := Category.accessory, style := Style.casual,
    color := redColor, price := 10, season := Season.all_season,
    occasion := [Occasion.everyday] }

/-- A second demo accessory. -/
def pA2 : Product :=
  { id := "a2", name := "demo accessory", category := Category.accessory,
    style := Style.casual, color := cyanColor, price := 5,
    season := Season.all_season, occasion := [Occasion.everyday] }

/-- Demo catalog with one product per core slot and two accessories. -/
def products10 : List Product := [pT, pB, pF, pBase, pA2]

/-- Request based on the accessory `pBase`, asking for one outfit. -/
def req10 : RecommendationRequest :=
  { base_product_id := "abase", num_recommendations := 1 }

/-- A concrete random stream. -/
def rng10 : List ℕ := [0, 0, 0, 0, 0]

/-- The concrete result list of the demo run. -/
def demo_result10 : List Outfit :=
  (generate_recommendations products10 req10 rng10).toOption.getD []

/-- Demo catalog without any accessory products. -/
def products7 : List Product := [pT, pB, pF]

/-- Request based on the top `pT`, asking for one outfit. -/
def req7 : RecommendationRequest :=
  { base_product_id := "t1", num_recommendations := 1 }

/-- Request whose base identifier resolves to no product. -/
def reqUnknown : RecommendationRequest := { base_product_id := "nope" }

/-- A concrete outfit (top red, bottom cyan, footwear red). -/
def outfit8 : Outfit :=
  { top := pT, bottom := pB, footwear := pF, accessories := [],
    match_score := 0, reasoning := "", total_price := 90 }

/-- The single outfit produced by the demo run: all slots filled from
candidates, the base accessory skipped in favour of `pA2`. -/
def demo_outfit10 : Outfit :=
  { top := pT, bottom := pB, footwear := pF, accessories := [pA2],
    match_score := 19/25, reasoning := "", total_price := 95 }

/-- A concrete outfit whose total price is 20% over a budget of 10. -/
def outfitOver : Outfit :=
  { top := pT, bottom := pB, footwear := pF, accessories := [],
    match_score := 0, reasoning := "", total_price := 12 }

/-! ### Helper lemmas about random selection -/

/-- An element produced by `choice` belongs to the list. -/
theorem choice_mem {α : Type} {l : List α} {rng rng' : List ℕ} {a : α}
    (h : choice l rng = some (a, rng')) : a ∈ l := by
  cases l with
  | nil => simp [choice] at h
  | cons x tl =>
    rcases hrn : rngNext rng with ⟨n, r⟩
    have hlt : n % (x :: tl).length < (x :: tl).length :=
      Nat.mod_lt _ (by simp)
    simp only [choice, hrn] at h
    have ha : (x :: tl).getD (n % (x :: tl).length) x = a :=
      congrArg Prod.fst (Option.some.inj h)
    rw [← ha, List.getD_eq_getElem?_getD, List.getElem?_eq_getElem hlt]
    simp

/-- On a non-empty list `choice` always succeeds. -/
theorem choice_isSome {α : Type} (x : α) (tl : List α) (rng : List ℕ) :
    ∃ a rng', choice (x :: tl) rng = some (a, rng') := by
  rcases hrn : rngNext rng with ⟨n, r⟩
  exact ⟨(x :: tl).getD (n % (x :: tl).length) x, r, by
    simp only [choice, hrn]⟩

/-- Members of the scored list are candidates whose id differs from the
base product's. -/
theorem scored_candidates_mem {products candidates : List Product}
    {base_product : Product} {s : ℚ} {p : Product}
    (h : (s, p) ∈ scored_candidates products candidates base_product) :
    p ∈ candidates ∧ p.id ≠ base_product.id := by
  simp only [scored_candidates, List.mem_map, List.mem_filter,
    decide_eq_true_eq] at h
  obtain ⟨c, ⟨hc, hcid⟩, heq⟩ := h
  cases heq
  exact ⟨hc, hcid⟩

/-- The top-k slice is contained in the scored list. -/
theorem top_candidates_subset {products candidates : List Product}
    {base_product : Product} {sp : ℚ × Product}
    (h : sp ∈ top_candidates products candidates base_product) :
    sp ∈ scored_candidates products candidates base_product := by
  simp only [top_candidates] at h
  exact (List.mem_insertionSort _).mp (List.take_subset _ _ h)

/-- A non-empty scored list yields a non-empty top-k slice. -/
theorem top_candidates_ne_nil {products candidates : List Product}
    {base_product : Product}
    (h : scored_candidates products candidates base_product ≠ []) :
    top_candidates products candidates base_product ≠ [] := by
  have hlen : 0 < (scored_candidates products candidates base_product).length :=
    List.length_pos.mpr h
  intro hnil
  have h0 := congrArg List.length hnil
  simp only [top_candidates, List.length_take, List.length_insertionSort,
    List.length_nil] at h0
  omega

/-- On a non-empty candidate list `_select_item` always returns an item. -/
theorem select_item_isSome (products candidates : List Product)
    (base_product : Product) (rng : List ℕ) (h : candidates ≠ []) :
    ∃ p rng',
      select_item products candidates base_product rng = some (p, rng') := by
  cases candidates with
  | nil => exact absurd rfl h
  | cons x tl =>
    cases htc : top_candidates products (x :: tl) base_product with
    | nil =>
      obtain ⟨a, r, hc⟩ := choice_isSome x tl rng
      exact ⟨a, r, by simp only [select_item, htc]; exact hc⟩
    | cons t ts =>
      obtain ⟨a, r, hc⟩ := choice_isSome t ts rng
      exact ⟨a.2, r, by simp only [select_item, htc, hc, Option.map_some']⟩

/-- `_select_item` fails exactly on an empty candidate list. -/
theorem select_item_none_iff {products candidates : List Product}
    {base_product : Product} {rng : List ℕ} :
    select_item products candidates base_product rng = none ↔
      candidates = [] := by
  constructor
  · intro h
    by_contra hne
    obtain ⟨p, r, hs⟩ := select_item_isSome products candidates
      base_product rng hne
    rw [h] at hs
    cases hs
  · rintro rfl
    rfl

/-- A selected item is one of the candidates. -/
theorem select_item_mem {products candidates : List Product}
    {base_product : Product} {rng rng' : List ℕ} {p : Product}
    (h : select_item products candidates base_product rng = some (p, rng')) :
    p ∈ candidates := by
  cases candidates with
  | nil => cases h
  | cons x tl =>
    cases htc : top_candidates products (x :: tl) base_product with
    | nil =>
      simp only [select_item, htc] at h
      exact choice_mem h
    | cons t ts =>
      simp only [select_item, htc] at h
      rcases hc : choice (t :: ts) rng with _ | ⟨a, r⟩
      · rw [hc] at h
        cases h
      · rw [hc, Option.map_some'] at h
        have h1 : a.2 = p := congrArg Prod.fst (Option.some.inj h)
        have hmem : a ∈ top_candidates products (x :: tl) base_product :=
          htc.symm ▸ choice_mem hc
        have hsp : (a.1, a.2) ∈
            scored_candidates products (x :: tl) base_product := by
          rw [Prod.mk.eta]
          exact top_candidates_subset hmem
        exact h1 ▸ (scored_candidates_mem hsp).1

/-- When some candidate has an id other than the base product's, the
selected item never has the base product's id and comes from the ranked
top-k slice. -/
theorem select_item_ranked {products candidates : List Product}
    {base_product : Product} {rng rng' : List ℕ} {p : Product}
    (hsc : scored_candidates products candidates base_product ≠ [])
    (h : select_item products candidates base_product rng = some (p, rng')) :
    p.id ≠ base_product.id ∧
      ∃ s, (s, p) ∈ top_candidates products candidates base_product := by
  cases candidates with
  | nil => cases h
  | cons x tl =>
    have htne := top_candidates_ne_nil hsc
    cases htc : top_candidates products (x :: tl) base_product with
    | nil => exact absurd htc htne
    | cons t ts =>
      simp only [select_item, htc] at h
      rcases hc : choice (t :: ts) rng with _ | ⟨a, r⟩
      · rw [hc] at h
        cases h
      · rw [hc, Option.map_some'] at h
        have h1 : a.2 = p := congrArg Prod.fst (Option.some.inj h)
        have hmem : a ∈ top_candidates products (x :: tl) base_product :=
          htc.symm ▸ choice_mem hc
        have hsp : (a.1, a.2) ∈
            scored_candidates products (x :: tl) base_product := by
          rw [Prod.mk.eta]
          exact top_candidates_subset hmem
        refine ⟨h1 ▸ (scored_candidates_mem hsp).2, a.1, ?_⟩
        rw [← h1, Prod.mk.eta]
        exact choice_mem hc

/-! ### Claim theorems: selection (C2) -/

/-- C2: `_select_item` fails (signals "no candidates available") iff the
candidate list is empty; on a non-empty candidate list the returned item is
an element of the list, and — whenever at least one candidate's id differs
from the base product's (equivalently, the scored list after excluding the
base product is non-empty) — the returned item never carries the base
product's id and is drawn from the top `max(3, count/3)` candidates ranked
descending by compatibility plus the 0.2 style bonus.  (The unqualified
"never the base product" of the original claim is false: see the
counterexample theorem.) -/
theorem c2_select_item_spec (products candidates : List Product)
    (base_product : Product) (rng : List ℕ) :
    (select_item products candidates base_product rng = none ↔
      candidates = []) ∧
    (∀ p rng',
      select_item products candidates base_product rng = some (p, rng') →
      p ∈ candidates ∧
        (scored_candidates products candidates base_product ≠ [] →
          p.id ≠ base_product.id ∧
            ∃ s, (s, p) ∈ top_candidates products candidates base_product)) :=
  ⟨select_item_none_iff, fun _ _ h =>
    ⟨select_item_mem h, fun hsc => select_item_ranked hsc h⟩⟩

/-- Witness for C2 at a concrete input: selecting among the two demo
accessories with `pBase` as base returns `pA2`, which is a candidate, is
not the base, and sits in the top-k slice. -/
theorem c2_select_item_spec_witness :
    pA2 ∈ [pBase, pA2] ∧ pA2.id ≠ pBase.id ∧
      ∃ s, (s, pA2) ∈ top_candidates products10 [pBase, pA2] pBase := by
  have h := (c2_select_item_spec products10 [pBase, pA2] pBase [0]).2 pA2 []
    (by decide)
  have h2 := h.2 (by decide)
  exact ⟨h.1, h2.1, h2.2⟩

/-- C2 counterexample: when the only candidate IS the base product, the
scored list is empty and the `random.choice(candidates)` fallback returns
the base product itself — refuting "the item it returns ... is never the
base product". -/
theorem c2_counterexample :
    select_item [pBase] [pBase] pBase [0] = some (pBase, []) := by decide

/-! ### Claim theorems: error behaviour (C1) -/

/-- C1: `generate_recommendations` succeeds iff the request's
`base_product_id` resolves in the catalog, and when it does not resolve the
result is exactly the "Product ... not found" error (no partial output);
for a resolving base product the computation is total and never fails for
any other reason. -/
theorem c1_error_iff_not_found (products : List Product)
    (request : RecommendationRequest) (rng : List ℕ) :
    ((generate_recommendations products request rng).isOk =
      (by_id products request.base_product_id).isSome) ∧
    (by_id products request.base_product_id = none →
      generate_recommendations products request rng =
        Except.error ("Product " ++ request.base_product_id ++
          " not found")) := by
  cases h : by_id products request.base_product_id with
  | none => simp [generate_recommendations, h, Except.isOk, Except.toBool]
  | some base => simp [generate_recommendations, h, Except.isOk, Except.toBool]

/-- Witness for C1: an unknown base id yields exactly the NotFound error. -/
theorem c1_error_iff_not_found_witness :
    generate_recommendations products10 reqUnknown [] =
      Except.error ("Product " ++ reqUnknown.base_product_id ++
        " not found") :=
  (c1_error_iff_not_found products10 reqUnknown []).2 (by decide)

/-! ### Claim theorems: compatibility index (C3) -/

/-- The canonicalized key is symmetric in its two identifiers. -/
theorem sortedKey_comm (a b : String) : sortedKey a b = sortedKey b a := by
  unfold sortedKey
  rcases le_or_lt a b with hab | hab
  · rcases le_or_lt b a with hba | hba
    · simp [hab, hba, le_antisymm hab hba]
    · simp [hab, not_le.mpr hba]
  · simp [not_le.mpr hab, hab.le]

/-- The coarse band table only produces values in [0, 1]. -/
theorem calculate_color_compatibility_range (c1 c2 : Color) :
    0 ≤ calculate_color_compatibility c1 c2 ∧
      calculate_color_compatibility c1 c2 ≤ 1 := by
  simp only [calculate_color_compatibility]
  split_ifs <;> norm_num

/-- Every stored compatibility entry lies in [0, 1]. -/
theorem compatibility_cache_mem_range {products : List Product}
    {e : (String × String) × ℚ} (h : e ∈ compatibility_cache products) :
    0 ≤ e.2 ∧ e.2 ≤ 1 := by
  simp only [compatibility_cache, List.mem_map] at h
  obtain ⟨pq, _, heq⟩ := h
  rw [← heq]
  exact calculate_color_compatibility_range _ _

/-- Any compatibility lookup lies in [0, 1]. -/
theorem get_compatibility_range (products : List Product) (p1 p2 : Product) :
    0 ≤ get_compatibility products p1 p2 ∧
      get_compatibility products p1 p2 ≤ 1 := by
  cases hf : (compatibility_cache products).reverse.find?
      (fun e => decide (e.1 = sortedKey p1.id p2.id)) with
  | none =>
    simp only [get_compatibility, hf]
    norm_num
  | some e =>
    have hm : e ∈ compatibility_cache products :=
      List.mem_reverse.mp (List.mem_of_find?_eq_some hf)
    simp only [get_compatibility, hf]
    exact compatibility_cache_mem_range hm

/-- C3: compatibility lookup is symmetric (the key is the canonicalized
unordered id pair), always lies in [0, 1], and returns the neutral default
0.5 for any pair of identifiers that was never indexed. -/
theorem c3_compatibility_props (products : List Product) (p1 p2 : Product) :
    get_compatibility products p1 p2 = get_compatibility products p2 p1 ∧
    0 ≤ get_compatibility products p1 p2 ∧
    get_compatibility products p1 p2 ≤ 1 ∧
    ((∀ e ∈ compatibility_cache products, e.1 ≠ sortedKey p1.id p2.id) →
      get_compatibility products p1 p2 = 1/2) := by
  refine ⟨?_, (get_compatibility_range products p1 p2).1,
    (get_compatibility_range products p1 p2).2, ?_⟩
  · simp only [get_compatibility, sortedKey_comm p1.id p2.id]
  · intro hall
    have hnone : (compatibility_cache products).reverse.find?
        (fun e => decide (e.1 = sortedKey p1.id p2.id)) = none := by
      rw [List.find?_eq_none]
      intro x hx
      simp only [decide_eq_true_eq]
      exact hall x (List.mem_reverse.mp hx)
    simp [get_compatibility, hnone]

/-- Witness for C3: over an empty catalog nothing is indexed, so the demo
pair falls back to the neutral default 0.5. -/
theorem c3_compatibility_props_witness : get_compatibility [] pT pB = 1/2 :=
  (c3_compatibility_props [] pT pB).2.2.2
    (by simp [compatibility_cache, allPairs])

/-! ### Scorer bounds and claim theorems C4, C5 -/

/-- Every fine band value is non-negative. -/
theorem fine_band_score_nonneg (a h : ℚ) : 0 ≤ fine_band_score a h := by
  simp only [fine_band_score]
  split_ifs <;> norm_num

/-- The color sub-score is non-negative. -/
theorem score_color_harmony_nonneg (o : Outfit) :
    0 ≤ score_color_harmony o := by
  simp only [score_color_harmony]
  refine le_min (by norm_num) (add_nonneg ?_ ?_)
  · split_ifs with h0
    · norm_num
    · refine div_nonneg (List.sum_nonneg ?_) (Nat.cast_nonneg _)
      intro x hx
      obtain ⟨c, -, rfl⟩ := List.mem_map.mp hx
      exact fine_band_score_nonneg _ _
  · split_ifs with h1
    · exact le_min (by norm_num) (by positivity)
    · exact le_refl 0

/-- The color sub-score is clamped at 1. -/
theorem score_color_harmony_le_one (o : Outfit) :
    score_color_harmony o ≤ 1 := by
  simp only [score_color_harmony]
  exact min_le_left _ _

/-- The style sub-score lies in [0, 1]. -/
theorem score_style_range (o : Outfit) :
    0 ≤ score_style_compatibility o ∧ score_style_compatibility o ≤ 1 := by
  simp only [score_style_compatibility]
  split_ifs <;> norm_num

/-- The occasion sub-score lies in [0, 1]. -/
theorem score_occasion_range (t : Option Occasion) (o : Outfit) :
    0 ≤ score_occasion_fit t o ∧ score_occasion_fit t o ≤ 1 := by
  cases t with
  | none =>
    simp only [score_occasion_fit]
    norm_num
  | some oc =>
    simp only [score_occasion_fit]
    split_ifs <;> norm_num

/-- The season sub-score lies in [0, 1]. -/
theorem score_season_range (t : Option Season) (o : Outfit) :
    0 ≤ score_season_fit t o ∧ score_season_fit t o ≤ 1 := by
  cases t with
  | none =>
    simp only [score_season_fit]
    norm_num
  | some s =>
    simp only [score_season_fit]
    split_ifs <;> norm_num

/-- The budget sub-score lies in [0, 1] (requires, as the data model does,
a positive budget when one is present). -/
theorem score_budget_range (mb : Option ℚ) (o : Outfit)
    (hb : ∀ b, mb = some b → 0 < b) :
    0 ≤ score_budget mb o ∧ score_budget mb o ≤ 1 := by
  cases mb with
  | none =>
    simp only [score_budget]
    norm_num
  | some b =>
    have hbp : 0 < b := hb b rfl
    simp only [score_budget, if_neg hbp.ne']
    split_ifs with h1 h2
    · norm_num
    · norm_num
    · constructor
      · exact le_trans (by norm_num) (le_max_left _ _)
      · apply max_le (by norm_num)
        have hlt : b < o.total_price := not_le.mp h1
        have hov : 0 ≤ (o.total_price - b) / b :=
          div_nonneg (by linarith) hbp.le
        have hmin : 0 ≤ min (1/2 : ℚ) ((o.total_price - b) / b) :=
          le_min (by norm_num) hov
        linarith

/-- C4: the total score is exactly the fixed weighted sum
0.30/0.25/0.20/0.15/0.10 of the five sub-scores, the weights sum to
exactly 1, and (for a positive budget when one is present, as the data
model requires) the total always lies in [0, 1]. -/
theorem c4_weighted_sum (target_occasion : Option Occasion)
    (target_season : Option Season) (max_budget : Option ℚ) (o : Outfit)
    (hb : ∀ b, max_budget = some b → 0 < b) :
    COLOR_WEIGHT + STYLE_WEIGHT + OCCASION_WEIGHT + SEASON_WEIGHT +
      BUDGET_WEIGHT = 1 ∧
    score_outfit target_occasion target_season max_budget o =
      score_color_harmony o * COLOR_WEIGHT +
      score_style_compatibility o * STYLE_WEIGHT +
      score_occasion_fit target_occasion o * OCCASION_WEIGHT +
      score_season_fit target_season o * SEASON_WEIGHT +
      score_budget max_budget o * BUDGET_WEIGHT ∧
    0 ≤ score_outfit target_occasion target_season max_budget o ∧
    score_outfit target_occasion target_season max_budget o ≤ 1 := by
  have hc1 := score_color_harmony_nonneg o
  have hc2 := score_color_harmony_le_one o
  have hst := score_style_range o
  have ho := score_occasion_range target_occasion o
  have hse := score_season_range target_season o
  have hbu := score_budget_range max_budget o hb
  refine ⟨by norm_num [COLOR_WEIGHT, STYLE_WEIGHT, OCCASION_WEIGHT,
    SEASON_WEIGHT, BUDGET_WEIGHT], rfl, ?_, ?_⟩
  · simp only [score_outfit, COLOR_WEIGHT, STYLE_WEIGHT, OCCASION_WEIGHT,
      SEASON_WEIGHT, BUDGET_WEIGHT]
    obtain ⟨h3, -⟩ := hst
    obtain ⟨h4, -⟩ := ho
    obtain ⟨h5, -⟩ := hse
    obtain ⟨h6, -⟩ := hbu
    linarith
  · simp only [score_outfit, COLOR_WEIGHT, STYLE_WEIGHT, OCCASION_WEIGHT,
      SEASON_WEIGHT, BUDGET_WEIGHT]
    obtain ⟨-, h3⟩ := hst
    obtain ⟨-, h4⟩ := ho
    obtain ⟨-, h5⟩ := hse
    obtain ⟨-, h6⟩ := hbu
    linarith

unseal Rat.mul Rat.add Rat.inv Rat.sub in
/-- Witness for C4: the demo outfit's score is in [0, 1] and reproduces
the expected weighted sum 0.3·(29/40) + 0.25·1 + 0.2·0.7 + 0.15·0.7 +
0.1·0.7 = 313/400. -/
theorem c4_weighted_sum_witness :
    (0 ≤ score_outfit none none none outfit8 ∧
      score_outfit none none none outfit8 ≤ 1) ∧
      score_outfit none none none outfit8 = 313/400 := by
  refine ⟨⟨?_, ?_⟩, by decide⟩
  · exact (c4_weighted_sum none none none outfit8
      (fun b h => Option.noConfusion h)).2.2.1
  · exact (c4_weighted_sum none none none outfit8
      (fun b h => Option.noConfusion h)).2.2.2

/-- C5: budget sub-score behaviour for a positive budget `b`: no budget
gives the flat 0.7; total price equal to the budget scores 1; total price
at half the budget scores 0.9; more generally under budget a used ratio
below 0.7 scores 0.9 and a ratio in [0.7, 1] scores 1; total price 20%
over budget scores max(0.1, 0.5 − 0.2) = 0.3; in general over budget the
score is max(0.1, 0.5 − min(0.5, overage/budget)). -/
theorem c5_budget_scoring (b : ℚ) (o : Outfit) (hb : 0 < b) :
    score_budget none o = 7/10 ∧
    (o.total_price = b → score_budget (some b) o = 1) ∧
    (o.total_price = b/2 → score_budget (some b) o = 9/10) ∧
    (o.total_price ≤ b → o.total_price / b < 7/10 →
      score_budget (some b) o = 9/10) ∧
    (o.total_price ≤ b → 7/10 ≤ o.total_price / b →
      score_budget (some b) o = 1) ∧
    (o.total_price = b * (6/5) → score_budget (some b) o = 3/10) ∧
    (b < o.total_price → score_budget (some b) o =
      max (1/10) (1/2 - min (1/2) ((o.total_price - b) / b))) := by
  have hne := hb.ne'
  refine ⟨rfl, ?_, ?_, ?_, ?_, ?_, ?_⟩
  · intro ht
    simp only [score_budget, if_neg hne]
    rw [ht, if_pos le_rfl, div_self hne]
    norm_num
  · intro ht
    simp only [score_budget, if_neg hne]
    have h2 : b / 2 / b = 1/2 := by
      field_simp
      ring
    rw [ht, if_pos (by linarith), h2]
    norm_num
  · intro h1 h2
    simp only [score_budget, if_neg hne]
    rw [if_pos h1, if_pos h2]
  · intro h1 h2
    simp only [score_budget, if_neg hne]
    rw [if_pos h1, if_neg (not_lt.mpr h2)]
  · intro ht
    simp only [score_budget, if_neg hne]
    have hgt : ¬(b * (6/5) ≤ b) := not_le.mpr (by linarith)
    have hov : (b * (6/5) - b) / b = 1/5 := by
      field_simp
      ring
    rw [ht, if_neg hgt, hov,
      min_eq_right (by norm_num : (1:ℚ)/5 ≤ 1/2),
      show (1:ℚ)/2 - 1/5 = 3/10 by norm_num,
      max_eq_right (by norm_num : (1:ℚ)/10 ≤ 3/10)]
  · intro hlt
    simp only [score_budget, if_neg hne]
    rw [if_neg (not_le.mpr hlt)]

unseal Rat.mul Rat.add Rat.inv Rat.sub in
/-- Witness for C5: a concrete outfit at 12 against a budget of 10 (20%
over) scores exactly 0.3. -/
theorem c5_budget_scoring_witness :
    score_budget (some 10) outfitOver = 3/10 :=
  (c5_budget_scoring 10 outfitOver (by norm_num)).2.2.2.2.2.1 (by decide)

/-! ### Claim theorem C9: candidate filtering -/

/-- C9: for every category, the candidate filter keeps exactly the catalog
items of that category that satisfy the conjunction of the given
constraints (occasion listed, season equal or all-season, style equal to
the preference or the base style, and price at most
(budget − basePrice) × 1.5 when a positive budget is given); an empty
result is an ordinary value, not an error. -/
theorem c9_filter_characterization (products : List Product)
    (base_product : Product) (occasion : Option Occasion)
    (season : Option Season) (max_budget : Option ℚ)
    (style_preference : Option Style) (cat : Category) (p : Product)
    (hb : ∀ b, max_budget = some b → 0 < b) :
    p ∈ filter_one products base_product occasion season max_budget
        style_preference cat ↔
      (p ∈ products ∧ p.category = cat ∧
        (∀ oc, occasion = some oc → oc ∈ p.occasion) ∧
        (∀ s, season = some s →
          (p.season = s ∨ p.season = Season.all_season)) ∧
        (∀ st, style_preference = some st →
          (p.style = st ∨ p.style = base_product.style)) ∧
        (∀ b, max_budget = some b →
          p.price ≤ (b - base_product.price) * (3/2))) := by
  rcases max_budget with _ | b
  · cases occasion <;> cases season <;> cases style_preference <;>
      simp [filter_one, by_category, List.mem_filter, and_assoc] <;> tauto
  · have hbne : b ≠ 0 := (hb b rfl).ne'
    cases occasion <;> cases season <;> cases style_preference <;>
      simp [filter_one, by_category, List.mem_filter, hbne, and_assoc] <;>
      tauto

/-- Witness for C9: the demo accessory `pA2` survives the unconstrained
filter for its category. -/
theorem c9_filter_characterization_witness :
    pA2 ∈ filter_one products10 pBase none none none none
      Category.accessory :=
  (c9_filter_characterization products10 pBase none none none none
    Category.accessory pA2 (fun b h => Option.noConfusion h)).mpr
    ⟨by decide, rfl, fun oc h => Option.noConfusion h,
      fun s h => Option.noConfusion h, fun st h => Option.noConfusion h,
      fun b h => Option.noConfusion h⟩

/-! ### Generation-loop invariants and claim theorem C6 -/

/-- The duplicate relation is symmetric. -/
theorem same_core_symm {a b : Outfit} (h : same_core a b) : same_core b a :=
  ⟨h.1.symm, h.2.1.symm, h.2.2.symm⟩

/-- A failed duplicate check means the outfit's core triple differs from
every collected outfit's. -/
theorem is_duplicate_false {o : Outfit} {existing : List Outfit}
    (h : is_duplicate o existing = false) :
    ∀ e ∈ existing, ¬ same_core o e := by
  intro e he hsc
  have ht : is_duplicate o existing = true := by
    simp only [is_duplicate, List.any_eq_true]
    exact ⟨e, he, by simp [hsc.1, hsc.2.1, hsc.2.2]⟩
  rw [h] at ht
  cases ht

/-- The generation loop preserves pairwise distinctness of the
(top, bottom, footwear) identifier triples. -/
theorem gen_loop_pairwise (products : List Product) (base_product : Product)
    (candidates : Category → List Product) (num : ℕ) :
    ∀ (fuel : ℕ) (outfits : List Outfit) (rng : List ℕ),
      outfits.Pairwise (fun a b => ¬ same_core a b) →
      (gen_loop products base_product candidates num fuel outfits
          rng).Pairwise (fun a b => ¬ same_core a b) := by
  intro fuel
  induction fuel with
  | zero =>
    intro outfits rng h
    simpa only [gen_loop] using h
  | succ n ih =>
    intro outfits rng h
    simp only [gen_loop]
    by_cases hlen : outfits.length < num
    · simp only [if_pos hlen]
      cases hgen : generate_single_outfit products base_product candidates
          rng with
      | mk oopt rng' =>
        cases oopt with
        | none => exact ih _ _ h
        | some o =>
          apply ih
          cases hdup : is_duplicate o outfits with
          | true => simpa only [hdup, if_true] using h
          | false =>
            rw [if_neg Bool.false_ne_true, List.pairwise_append]
            refine ⟨h, List.pairwise_singleton _ _, ?_⟩
            intro a ha b hb
            rw [List.mem_singleton] at hb
            subst hb
            exact fun hsc =>
              is_duplicate_false hdup a ha (same_core_symm hsc)
    · simp only [if_neg hlen]
      exact h

/-- Destructuring a successful `generate_recommendations` run. -/
theorem generate_recommendations_ok {products : List Product}
    {request : RecommendationRequest} {rng : List ℕ} {l : List Outfit}
    (h : generate_recommendations products request rng = Except.ok l) :
    ∃ base_product,
      by_id products request.base_product_id = some base_product ∧
      l = (((gen_loop products base_product
              (filter_candidates products base_product request.occasion
                request.season request.max_budget
                request.style_preference)
              request.num_recommendations 100 [] rng).map
            (rescore request.occasion request.season
              request.max_budget)).insertionSort
          (fun a b => b.match_score ≤ a.match_score)).take
        request.num_recommendations := by
  cases hid : by_id products request.base_product_id with
  | none => simp [generate_recommendations, hid] at h
  | some base_product =>
    simp only [generate_recommendations, hid, Except.ok.injEq] at h
    exact ⟨base_product, rfl, h.symm⟩

/-- C6: every successful result list has length at most the requested
count, is sorted descending by match score, and contains no two outfits
with the same (top, bottom, footwear) identifier triple. -/
theorem c6_result_invariants (products : List Product)
    (request : RecommendationRequest) (rng : List ℕ) (l : List Outfit)
    (h : generate_recommendations products request rng = Except.ok l) :
    l.length ≤ request.num_recommendations ∧
    l.Pairwise (fun a b => b.match_score ≤ a.match_score) ∧
    l.Pairwise (fun a b => ¬ same_core a b) := by
  obtain ⟨base_product, hid, hl⟩ := generate_recommendations_ok h
  subst hl
  refine ⟨List.length_take_le _ _, ?_, ?_⟩
  · haveI : IsTotal Outfit (fun a b => b.match_score ≤ a.match_score) :=
      ⟨fun a b => le_total b.match_score a.match_score⟩
    haveI : IsTrans Outfit (fun a b => b.match_score ≤ a.match_score) :=
      ⟨fun a b c hab hbc => le_trans hbc hab⟩
    exact List.Pairwise.sublist (List.take_sublist _ _)
      (List.sorted_insertionSort _ _)
  · have h0 := gen_loop_pairwise products base_product
      (filter_candidates products base_product request.occasion
        request.season request.max_budget request.style_preference)
      request.num_recommendations 100 [] rng List.Pairwise.nil
    have h1 : ((gen_loop products base_product
        (filter_candidates products base_product request.occasion
          request.season request.max_budget request.style_preference)
        request.num_recommendations 100 [] rng).map
          (rescore request.occasion request.season
            request.max_budget)).Pairwise
        (fun a b => ¬same_core a b) :=
      h0.map _ (fun a b hr => hr)
    have h2 := ((List.perm_insertionSort
        (fun a b => b.match_score ≤ a.match_score) _).pairwise_iff
      (fun hn hsc => hn (same_core_symm hsc))).mpr h1
    exact List.Pairwise.sublist (List.take_sublist _ _) h2

unseal Rat.mul Rat.add Rat.inv Rat.sub in
/-- Witness for C6 on the concrete demo run: the returned singleton list
satisfies all three invariants. -/
theorem c6_result_invariants_witness :
    [demo_outfit10].length ≤ req10.num_recommendations ∧
    [demo_outfit10].Pairwise (fun a b => b.match_score ≤ a.match_score) ∧
    [demo_outfit10].Pairwise (fun a b => ¬ same_core a b) :=
  c6_result_invariants products10 req10 rng10 [demo_outfit10] (by decide)

/-! ### Single-outfit structure lemmas and claim theorem C7 -/

/-- A filtered candidate is a catalog product of the requested category
(no positivity assumption on the budget is needed: filters only remove). -/
theorem filter_one_subset {products : List Product} {base_product : Product}
    {occasion : Option Occasion} {season : Option Season}
    {max_budget : Option ℚ} {style_preference : Option Style}
    {cat : Category} {p : Product}
    (h : p ∈ filter_one products base_product occasion season max_budget
      style_preference cat) :
    p ∈ products ∧ p.category = cat := by
  rcases max_budget with _ | b
  · rcases occasion with _ | oc <;> rcases season with _ | s <;>
      rcases style_preference with _ | st <;>
      simp only [filter_one, by_category, List.mem_filter,
        decide_eq_true_eq] at h <;>
      tauto
  · rcases occasion with _ | oc <;> rcases season with _ | s <;>
      rcases style_preference with _ | st <;>
      simp only [filter_one] at h <;>
      split at h <;>
      simp only [by_category, List.mem_filter, decide_eq_true_eq] at h <;>
      tauto

/-- A filled slot is either the base product (when its category matches)
or a candidate of that slot. -/
theorem pick_slot_spec {products : List Product} {base_product : Product}
    {cands : List Product} {slotCat : Category} {rng rng' : List ℕ}
    {p : Product}
    (h : pick_slot products base_product cands slotCat rng =
      some (p, rng')) :
    (base_product.category = slotCat ∧ p = base_product) ∨ p ∈ cands := by
  by_cases hcat : base_product.category = slotCat
  · left
    simp only [pick_slot, if_pos hcat] at h
    exact ⟨hcat, (congrArg Prod.fst (Option.some.inj h)).symm⟩
  · right
    simp only [pick_slot, if_neg hcat] at h
    exact select_item_mem h

/-- The accessory-selection loop only adds candidates, keeps the list
duplicate-free, and adds at most one item per iteration. -/
theorem acc_loop_spec (products : List Product) (accCands : List Product)
    (base_product : Product) :
    ∀ (n : ℕ) (acc : List Product) (rng : List ℕ),
      (∀ a ∈ (acc_loop products accCands base_product n acc rng).1,
        a ∈ acc ∨ a ∈ accCands) ∧
      (acc.Nodup →
        (acc_loop products accCands base_product n acc rng).1.Nodup) ∧
      (acc_loop products accCands base_product n acc rng).1.length ≤
        acc.length + n := by
  intro n
  induction n with
  | zero =>
    intro acc rng
    exact ⟨fun a ha => Or.inl ha, fun hd => hd, by simp [acc_loop]⟩
  | succ m ih =>
    intro acc rng
    cases accCands with
    | nil =>
      simp only [acc_loop]
      obtain ⟨h1, h2, h3⟩ := ih acc rng
      exact ⟨h1, h2, by omega⟩
    | cons x tl =>
      simp only [acc_loop]
      obtain ⟨q, r, hs⟩ := select_item_isSome products (x :: tl)
        base_product rng (List.cons_ne_nil x tl)
      simp only [hs]
      by_cases hin : q ∈ acc
      · rw [if_pos hin]
        obtain ⟨h1, h2, h3⟩ := ih acc r
        exact ⟨h1, h2, by omega⟩
      · rw [if_neg hin]
        obtain ⟨h1, h2, h3⟩ := ih (acc ++ [q]) r
        refine ⟨?_, ?_, ?_⟩
        · intro a ha
          rcases h1 a ha with hacc | hc
          · rcases List.mem_append.mp hacc with hl | hr
            · exact Or.inl hl
            · rw [List.mem_singleton] at hr
              subst hr
              exact Or.inr (select_item_mem hs)
          · exact Or.inr hc
        · intro hnd
          apply h2
          rw [List.nodup_append]
          refine ⟨hnd, List.nodup_singleton _, ?_⟩
          intro a ha hq
          rw [List.mem_singleton] at hq
          subst hq
          exact hin ha
        · have hlen : (acc ++ [q]).length = acc.length + 1 := by simp
          omega

/-- The accessory phase yields 0–3 distinct accessories drawn from the
accessory candidates, with at least one whenever candidates exist. -/
theorem acc_phase_spec (products : List Product) (accCands : List Product)
    (base_product : Product) (rng : List ℕ) :
    (∀ a ∈ (acc_phase products accCands base_product rng).1,
      a ∈ accCands) ∧
    (acc_phase products accCands base_product rng).1.Nodup ∧
    (acc_phase products accCands base_product rng).1.length ≤ 3 ∧
    (accCands ≠ [] →
      (acc_phase products accCands base_product rng).1 ≠ []) := by
  have hlen : (randint 1 3 rng).1 ≤ 3 := by
    rcases hrn : rngNext rng with ⟨n, r⟩
    simp only [randint, hrn]
    omega
  obtain ⟨h1, h2, h3⟩ := acc_loop_spec products accCands base_product
    (randint 1 3 rng).1 [] (randint 1 3 rng).2
  simp only [List.length_nil, Nat.zero_add] at h3
  simp only [acc_phase]
  split_ifs with hcond
  · obtain ⟨hemp, hne⟩ := hcond
    obtain ⟨q, r, hs⟩ := select_item_isSome products accCands base_product
      (acc_loop products accCands base_product (randint 1 3 rng).1 []
        (randint 1 3 rng).2).2 hne
    simp only [hs]
    refine ⟨?_, List.nodup_singleton _, by simp, fun _ => by simp⟩
    intro a ha
    rw [List.mem_singleton] at ha
    subst ha
    exact select_item_mem hs
  · refine ⟨fun a ha => (h1 a ha).resolve_left (List.not_mem_nil a),
      h2 List.nodup_nil, le_trans h3 hlen, ?_⟩
    intro hne hemp
    exact hcond ⟨hemp, hne⟩

/-- Structure of a successfully generated single outfit. -/
theorem generate_single_spec {products : List Product}
    {base_product : Product} {candidates : Category → List Product}
    {rng rng' : List ℕ} {o : Outfit}
    (h : generate_single_outfit products base_product candidates rng =
      (some o, rng')) :
    ((base_product.category = Category.top ∧ o.top = base_product) ∨
      o.top ∈ candidates Category.top) ∧
    ((base_product.category = Category.bottom ∧ o.bottom = base_product) ∨
      o.bottom ∈ candidates Category.bottom) ∧
    ((base_product.category = Category.footwear ∧
        o.footwear = base_product) ∨
      o.footwear ∈ candidates Category.footwear) ∧
    (∀ a ∈ o.accessories, a ∈ candidates Category.accessory) ∧
    o.accessories.Nodup ∧
    o.accessories.length ≤ 3 ∧
    (candidates Category.accessory ≠ [] → o.accessories ≠ []) := by
  simp only [generate_single_outfit] at h
  cases h1 : pick_slot products base_product (candidates Category.top)
      Category.top rng with
  | none => simp [h1] at h
  | some pr1 =>
    obtain ⟨top1, rng1⟩ := pr1
    simp only [h1] at h
    cases h2 : pick_slot products base_product (candidates Category.bottom)
        Category.bottom rng1 with
    | none => simp [h2] at h
    | some pr2 =>
      obtain ⟨bot1, rng2⟩ := pr2
      simp only [h2] at h
      cases h3 : pick_slot products base_product
          (candidates Category.footwear) Category.footwear rng2 with
      | none => simp [h3] at h
      | some pr3 =>
        obtain ⟨foot1, rng3⟩ := pr3
        simp only [h3, Prod.mk.injEq, Option.some.injEq] at h
        obtain ⟨ho, -⟩ := h
        subst ho
        obtain ⟨ha1, ha2, ha3, ha4⟩ := acc_phase_spec products
          (candidates Category.accessory) base_product rng3
        exact ⟨pick_slot_spec h1, pick_slot_spec h2, pick_slot_spec h3,
          ha1, ha2, ha3, ha4⟩

/-- Every outfit in the generation loop's output either was in the
accumulator or was produced by a single-outfit attempt. -/
theorem gen_loop_mem {products : List Product} {base_product : Product}
    {candidates : Category → List Product} {num : ℕ}
    (P : Outfit → Prop)
    (hgen : ∀ rng o rng',
      generate_single_outfit products base_product candidates rng =
        (some o, rng') → P o) :
    ∀ (fuel : ℕ) (outfits : List Outfit) (rng : List ℕ),
      (∀ o ∈ outfits, P o) →
      ∀ o ∈ gen_loop products base_product candidates num fuel outfits rng,
        P o := by
  intro fuel
  induction fuel with
  | zero =>
    intro outfits rng h
    simpa only [gen_loop] using h
  | succ n ih =>
    intro outfits rng h
    simp only [gen_loop]
    by_cases hlen : outfits.length < num
    · simp only [if_pos hlen]
      cases hg : generate_single_outfit products base_product candidates
          rng with
      | mk oopt rng2 =>
        cases oopt with
        | none => exact ih _ _ h
        | some onew =>
          apply ih
          intro o' ho'
          by_cases hdup : is_duplicate onew outfits = true
          · rw [if_pos hdup] at ho'
            exact h o' ho'
          · rw [if_neg hdup] at ho'
            rcases List.mem_append.mp ho' with ho | hw
            · exact h o' ho
            · rw [List.mem_singleton] at hw
              subst hw
              exact hgen rng o' rng2 hg
    · simp only [if_neg hlen]
      exact h

/-- C7 (amended): in a catalog with pairwise distinct product identifiers,
every returned outfit has at most 3 accessories with pairwise distinct
identifiers, none of which equals the top/bottom/footwear identifier, and
has at least one accessory whenever the accessory candidate list is
non-empty.  (The original "between 1 and 3" fails when there are no
accessory candidates: see the counterexample.) -/
theorem c7_accessory_invariants (products : List Product)
    (request : RecommendationRequest) (rng : List ℕ) (l : List Outfit)
    (hids : (products.map Product.id).Nodup)
    (h : generate_recommendations products request rng = Except.ok l) :
    ∀ o ∈ l,
      o.accessories.length ≤ 3 ∧
      (o.accessories.map Product.id).Nodup ∧
      (∀ a ∈ o.accessories,
        a.id ≠ o.top.id ∧ a.id ≠ o.bottom.id ∧ a.id ≠ o.footwear.id) ∧
      (∀ base_product,
        by_id products request.base_product_id = some base_product →
        filter_one products base_product request.occasion request.season
          request.max_budget request.style_preference
          Category.accessory ≠ [] →
        o.accessories ≠ []) := by
  obtain ⟨base_product, hid, hl⟩ := generate_recommendations_ok h
  subst hl
  intro o ho
  have ho3 := (List.mem_insertionSort _).mp (List.take_subset _ _ ho)
  obtain ⟨o', ho', rfl⟩ := List.mem_map.mp ho3
  have hbase_mem : base_product ∈ products := by
    have hid' := hid
    simp only [by_id] at hid'
    exact List.mem_reverse.mp (List.mem_of_find?_eq_some hid')
  have hslot : ∀ q : Product,
      ((base_product.category = Category.top ∧ q = base_product) ∨
        q ∈ filter_candidates products base_product request.occasion
          request.season request.max_budget request.style_preference
          Category.top) →
      q ∈ products ∧ q.category = Category.top := by
    intro q hq
    rcases hq with ⟨hcat, rfl⟩ | hmem
    · exact ⟨hbase_mem, hcat⟩
    · exact filter_one_subset hmem
  have hslot2 : ∀ q : Product,
      ((base_product.category = Category.bottom ∧ q = base_product) ∨
        q ∈ filter_candidates products base_product request.occasion
          request.season request.max_budget request.style_preference
          Category.bottom) →
      q ∈ products ∧ q.category = Category.bottom := by
    intro q hq
    rcases hq with ⟨hcat, rfl⟩ | hmem
    · exact ⟨hbase_mem, hcat⟩
    · exact filter_one_subset hmem
  have hslot3 : ∀ q : Product,
      ((base_product.category = Category.footwear ∧ q = base_product) ∨
        q ∈ filter_candidates products base_product request.occasion
          request.season request.max_budget request.style_preference
          Category.footwear) →
      q ∈ products ∧ q.category = Category.footwear := by
    intro q hq
    rcases hq with ⟨hcat, rfl⟩ | hmem
    · exact ⟨hbase_mem, hcat⟩
    · exact filter_one_subset hmem
  have hall := gen_loop_mem
    (fun ob =>
      (∀ a ∈ ob.accessories, a ∈ products ∧
        a.category = Category.accessory) ∧
      ob.accessories.Nodup ∧
      ob.accessories.length ≤ 3 ∧
      (filter_candidates products base_product request.occasion
          request.season request.max_budget request.style_preference
          Category.accessory ≠ [] → ob.accessories ≠ []) ∧
      (ob.top ∈ products ∧ ob.top.category = Category.top) ∧
      (ob.bottom ∈ products ∧ ob.bottom.category = Category.bottom) ∧
      (ob.footwear ∈ products ∧ ob.footwear.category = Category.footwear))
    (by
      intro rngx ox rngy hg
      obtain ⟨ht, hb, hf, hacc, hnd, hlen3, hne1⟩ := generate_single_spec hg
      exact ⟨fun a ha => filter_one_subset (hacc a ha), hnd, hlen3, hne1,
        hslot _ ht, hslot2 _ hb, hslot3 _ hf⟩)
    100 [] rng (fun o ho => absurd ho (List.not_mem_nil o)) o' ho'
  obtain ⟨hmemcat, hnd, hlen3, hne1, htop, hbot, hfoot⟩ := hall
  have hinj : ∀ x ∈ products, ∀ y ∈ products, x.id = y.id → x = y :=
    fun x hx y hy => List.inj_on_of_nodup_map hids hx hy
  refine ⟨hlen3, ?_, ?_, ?_⟩
  · exact List.Nodup.map_on
      (fun x hx y hy hxy => hinj x (hmemcat x hx).1 y (hmemcat y hy).1 hxy)
      hnd
  · intro a ha
    obtain ⟨hap, hacat⟩ := hmemcat a ha
    refine ⟨?_, ?_, ?_⟩
    · intro hid2
      have := hinj a hap _ htop.1 hid2
      rw [this, htop.2] at hacat
      cases hacat
    · intro hid2
      have := hinj a hap _ hbot.1 hid2
      rw [this, hbot.2] at hacat
      cases hacat
    · intro hid2
      have := hinj a hap _ hfoot.1 hid2
      rw [this, hfoot.2] at hacat
      cases hacat
  · intro base2 hbase2 hfne
    have hb2 : base2 = base_product := by
      rw [hid] at hbase2
      exact (Option.some.inj hbase2).symm
    subst hb2
    exact hne1 hfne

unseal Rat.mul Rat.add Rat.inv Rat.sub in
/-- C7 counterexample: with a catalog containing no accessory products,
the demo run succeeds and returns an outfit with ZERO accessories —
refuting "every generated outfit contains between 1 and 3 accessories". -/
theorem c7_counterexample :
    (generate_recommendations products7 req7 [0, 0, 0]).map
      (fun l => l.map (fun o => o.accessories.length)) =
      Except.ok [0] := by decide

unseal Rat.mul Rat.add Rat.inv Rat.sub in
/-- Witness for C7 on the concrete demo run. -/
theorem c7_accessory_invariants_witness :
    demo_outfit10.accessories.length ≤ 3 ∧
    (demo_outfit10.accessories.map Product.id).Nodup ∧
    (∀ a ∈ demo_outfit10.accessories,
      a.id ≠ demo_outfit10.top.id ∧ a.id ≠ demo_outfit10.bottom.id ∧
        a.id ≠ demo_outfit10.footwear.id) ∧
    (∀ base_product,
      by_id products10 req10.base_product_id = some base_product →
      filter_one products10 base_product req10.occasion req10.season
        req10.max_budget req10.style_preference Category.accessory ≠ [] →
      demo_outfit10.accessories ≠ []) :=
  c7_accessory_invariants products10 req10 rng10 [demo_outfit10]
    (by decide) (by decide) demo_outfit10 (by simp)

/-! ### Claim theorems C8 (color sub-score) and C10 (accessory base) -/

/-- The source's band chain and the spec-side band table (written with the
bands in a different order) agree for every distance: the bands are
mutually disjoint. -/
theorem band_tables_eq (d : ℚ) :
    (if d < 15 then (19:ℚ)/20
     else if d < 30 then 17/20
     else if 115 < d ∧ d < 125 then 3/4
     else if 150 < d ∧ d < 180 then 4/5
     else if 30 < d ∧ d < 60 then 7/10
     else 1/2) = spec_band_table d := by
  simp only [spec_band_table]
  by_cases h1 : d < 15
  · simp [h1]
  · by_cases h2 : d < 30
    · simp [h1, h2]
    · by_cases h3 : 115 < d ∧ d < 125
      · have h5 : ¬(30 < d ∧ d < 60) := fun hc => by linarith [h3.1, hc.2]
        simp [h1, h2, h3, h5]
      · by_cases h4 : 150 < d ∧ d < 180
        · have h5 : ¬(30 < d ∧ d < 60) := fun hc => by
            linarith [h4.1, hc.2]
          simp [h1, h2, h3, h4, h5]
        · by_cases h5 : 30 < d ∧ d < 60
          · simp [h1, h2, h3, h4, h5]
          · simp [h1, h2, h3, h4, h5]

/-- The per-item classification equals the spec-side band table applied to
the normalized hue distance. -/
theorem fine_band_eq_spec (a h : ℚ) :
    fine_band_score a h = spec_band_table (spec_hue_distance a h) := by
  simp only [fine_band_score, spec_hue_distance]
  exact band_tables_eq _

/-- The guarded neutrality bonus of the source equals the unguarded
`min` formula of the spec (at count 0 both are 0). -/
theorem bonus_if_eq (c : ℕ) :
    (if c > 0 then min (1/10 : ℚ) ((c : ℚ) * (3/100)) else 0) =
      min (1/10) ((c : ℚ) * (3/100)) := by
  by_cases hc : c > 0
  · rw [if_pos hc]
  · rw [if_neg hc]
    have hc0 : c = 0 := by omega
    subst hc0
    simp

/-- C8 (amended): the color sub-score equals the specification-side
definition that classifies each non-top item's normalized hue distance
with the strict-bounds band table, averages, adds the
`min(0.1, 0.03 × lowSaturationCount)` bonus over all items, and clamps at
1.  (The claim's closed ranges fail at the endpoints — e.g. a distance of
exactly 180° scores 0.50, not 0.80: see the counterexample.) -/
theorem c8_color_score_refines (o : Outfit) :
    score_color_harmony o = spec_color_score o := by
  have hitems : allItems o =
      o.top :: ([o.bottom, o.footwear] ++ o.accessories) := by
    simp [allItems]
  have hcount : ∀ L : List Product,
      (L.map Product.color).countP (fun c => decide (c.to_hsv.2.1 < 2/10)) =
        L.countP (fun p => decide (p.color.to_hsv.2.1 < 2/10)) := by
    intro L
    rw [List.countP_map]
    simp only [Function.comp_def]
  simp only [score_color_harmony, spec_color_score, hitems]
  rw [hcount]
  simp only [List.map_cons, List.tail_cons, List.map_map, List.length_map,
    List.length_cons, List.cons_append, Function.comp_def, bonus_if_eq,
    fine_band_eq_spec]
  rw [if_neg (by simp)]

unseal Rat.mul Rat.add Rat.inv Rat.sub in
/-- C8 counterexample: in the outfit (red top, cyan bottom, red footwear)
the bottom's hue distance to the top is exactly 180°, which the code
scores 0.50, not the 0.80 the claim's "150–180°" band predicts; the code's
total color sub-score is (0.5 + 0.95)/2 = 29/40, whereas the claim's table
would give (0.80 + 0.95)/2 = 7/8. -/
theorem c8_counterexample :
    score_color_harmony outfit8 = 29/40 ∧ (29/40 : ℚ) ≠ 7/8 := by
  constructor
  · decide
  · decide

unseal Rat.mul Rat.add Rat.inv Rat.sub in
/-- C10: the demo base product is an accessory, and the demo run succeeds
with a non-empty result in which no outfit contains any item carrying the
base product's identifier — an accessory-category base product is not
placed into any slot (slots take the base only for categories
top/bottom/footwear, and accessory selection skips the base's id). -/
theorem c10_accessory_base_omitted :
    (by_id products10 "abase").map Product.category =
      some Category.accessory ∧
    result_omits "abase"
      (generate_recommendations products10 req10 rng10) = true := by
  constructor
  · decide
  · decide

end CultureCircle
